import Mathlib

/-!
Verification of the Budget Calculation & Analytics Engine and its
frontend collaborators (personal-finance app).

Shallow embedding conventions:
* JavaScript numbers are modelled as exact rationals `ℚ`; the comparisons
  and arithmetic appearing in the embedded code are order/field operations
  that agree with IEEE semantics on the magnitudes involved.
* Fallible calls are `Except` / `Option` values.
* The backend calculation engine (Flask, not present in the frontend
  sources) is modelled from the specification; each such definition
  carries a doc comment starting with "Modelled from the spec:".
-/

namespace Vibe

/-! ## Data model (src/unnamed/part_007, type declarations) -/

/-- Transaction and category kind: income or expense. -/
inductive TxKind where
  | income
  | expense
deriving DecidableEq, Repr

/-- The methodology_type tag of a BudgetMethodology. -/
inductive MethodologyType where
  | zero_based
  | percentage_based
  | envelope
deriving DecidableEq, Repr

/-- Budget priority of a category (part_007, Category.budget_priority). -/
inductive Priority where
  | critical
  | essential
  | important
  | discretionary
deriving DecidableEq, Repr

/-- TransactionFormData (part_007): the payload of the transaction form. -/
structure TransactionFormData where
  date : String
  amount : ℚ
  category_id : Int
  description : String
  type : TxKind
deriving DecidableEq, Repr

/-- BudgetMethodology record (part_007, Feature 1005).  The free-form
configuration record is kept as an association list of string pairs. -/
structure BudgetMethodology where
  id : Int
  name : String
  description : String
  methodology_type : MethodologyType
  is_active : Bool
  is_default : Bool
  configuration : List (String × String)
deriving DecidableEq, Repr

/-- Alert status (part_007, AlertItem.status). -/
inductive AlertStatus where
  | active
  | dismissed
  | snoozed
deriving DecidableEq, Repr

/-! ## C7 — transaction form submit guard (src/unnamed/part_006) -/

/-- handleSubmit of TransactionModal (part_006 lines 49-61): the guard
`if (!formData.category_id || !formData.description || formData.amount <= 0) return;`
performs no submission for a zero category id, an empty description or a
non-positive amount; otherwise the form data is submitted unchanged. -/
def handleSubmit (f : TransactionFormData) : Option TransactionFormData :=
  if f.category_id = 0 ∨ f.description = "" ∨ f.amount ≤ 0 then none
  else some f

/-! ## C5 — budgetMethodologyApi.getActive (src/frontend/src/services/api.ts 390-400) -/

/-- An axios error as observed by the catch block: the optional HTTP
status of `error.response` (none when the request produced no response)
plus the remaining error content, kept abstract as a string. -/
structure ApiFailure where
  status : Option Nat
  payload : String
deriving DecidableEq, Repr

/-- Outcome of the GET /budget/methodologies/active call. -/
inductive ActiveResponse where
  | success : BudgetMethodology → ActiveResponse
  | failure : ApiFailure → ActiveResponse
deriving DecidableEq, Repr

/-- budgetMethodologyApi.getActive (api.ts lines 390-400): returns the
response data on success; on error returns null exactly when
`error.response?.status === 404`, otherwise re-throws the error. -/
def getActive (r : ActiveResponse) : Except ApiFailure (Option BudgetMethodology) :=
  match r with
  | .success m => .ok (some m)
  | .failure e => if e.status = some 404 then .ok none else .error e

/-! ## C4 — alert action buttons (src/frontend/src/pages/Alerts.tsx 145-152) -/

/-- Alerts.tsx line 146: the Dismiss button is rendered exactly when
the status differs from dismissed. -/
def dismissButtonShown (s : AlertStatus) : Bool :=
  decide (s ≠ AlertStatus.dismissed)

/-- Alerts.tsx line 149: the Snooze button is rendered exactly when
the status differs from snoozed. -/
def snoozeButtonShown (s : AlertStatus) : Bool :=
  decide (s ≠ AlertStatus.snoozed)

/-! ## C3 — result-shape dispatch of renderCalculationResult
(src/frontend/src/pages/BudgetMethodology.tsx 163-288) -/

/-- Whether the pattern is an initial segment of the character list. -/
def leadMatch : List Char → List Char → Bool
  | [], _ => true
  | _ :: _, [] => false
  | c :: cs, d :: ds => c == d && leadMatch cs ds

/-- Whether the pattern occurs as a contiguous run inside the list. -/
def listHasSub (pat : List Char) : List Char → Bool
  | [] => leadMatch pat []
  | d :: ds => leadMatch pat (d :: ds) || listHasSub pat ds

/-- JavaScript `s.includes(pat)` for strings. -/
def strHasSub (s pat : String) : Bool :=
  listHasSub pat.toList s.toList

/-- The three result renderers of renderCalculationResult. -/
inductive RendererKind where
  | zeroBased
  | percentageBased
  | envelope
deriving DecidableEq, Repr

/-- The dispatch of renderCalculationResult (BudgetMethodology.tsx lines
166-288): a switch on the `methodology` display string of the result.
The first case label is the literal string for zero-based; the second
case label is the runtime-computed value
the methodology name when it contains the word Rule, else the empty
string;
which the switch matches when the name contains "Rule" (the label equals
the scrutinee) or when the name is the empty string; everything else
falls to the default branch, the envelope renderer. -/
def selectRenderer (methodology : String) : RendererKind :=
  if methodology = "Zero-Based Budgeting" then .zeroBased
  else if strHasSub methodology "Rule" || methodology = "" then .percentageBased
  else .envelope

/-! ## C10 — comparison id selection of handleCompareMethodologies
(src/frontend/src/pages/BudgetMethodology.tsx 124-133) -/

/-- The filter predicate
`m.methodology_type !== activeMethodology?.methodology_type`: when no
methodology is active the optional chain yields undefined and every
methodology passes the strict inequality. -/
def differsFromActive (active : Option BudgetMethodology) (m : BudgetMethodology) : Bool :=
  match active with
  | some a => decide (m.methodology_type ≠ a.methodology_type)
  | none => true

/-- The id list handleCompareMethodologies sends to the compare endpoint
(BudgetMethodology.tsx lines 126-133): filter out methodologies sharing
the active type, keep at most three, map to ids, then unshift the active
id when an active methodology exists. -/
def selectedIds (methodologies : List BudgetMethodology)
    (active : Option BudgetMethodology) : List Int :=
  let base := ((methodologies.filter (differsFromActive active)).take 3).map (·.id)
  match active with
  | some a => a.id :: base
  | none => base

/-! ## Allocation Engine (spec §4.2)

The backend calculation engine is a Flask service whose sources are not
part of the frontend tree; only its TypeScript result declarations
(part_007) and the specification describe it.  The definitions below are
modelled from the spec and produce the declared result shapes. -/

/-- Engine view of a category: the fields of part_007 Category that the
Allocation Engine reads, plus the trailing 3-month average spend that the
collaborator supplies as historical data. -/
structure EngineCategory where
  id : Int
  name : String
  type : TxKind
  budget_limit : Option ℚ
  budget_priority : Priority
  historicalAvg : ℚ
deriving DecidableEq, Repr

/-- Per-category allocation line of a calculation result (part_007,
BudgetAllocation). -/
structure BudgetAllocation where
  category_id : Int
  category_name : String
  priority : Priority
  allocated_amount : ℚ
  percentage_of_income : ℚ
deriving DecidableEq, Repr

/-- Modelled from the spec: priority rank used by the zero-based sort,
critical before essential before important before discretionary. -/
def priorityRank : Priority → Nat
  | .critical => 0
  | .essential => 1
  | .important => 2
  | .discretionary => 3

/-- Modelled from the spec: the amount a category requests under
zero-based allocation — its declared limit, or, if unset, the fallback
computed from trailing 3-month average spend. -/
def requestedAmount (c : EngineCategory) : ℚ :=
  match c.budget_limit with
  | some l => l
  | none => c.historicalAvg

/-- Modelled from the spec: zero-based ordering — priority rank
ascending, ties broken by declared budget limit descending, then by
category id ascending for determinism. -/
def zbBefore (a b : EngineCategory) : Bool :=
  if priorityRank a.budget_priority ≠ priorityRank b.budget_priority then
    decide (priorityRank a.budget_priority < priorityRank b.budget_priority)
  else if requestedAmount a ≠ requestedAmount b then
    decide (requestedAmount b < requestedAmount a)
  else
    decide (a.id ≤ b.id)

/-- Insertion step of the deterministic sort used by the engine model. -/
def insertSorted (le : EngineCategory → EngineCategory → Bool)
    (a : EngineCategory) : List EngineCategory → List EngineCategory
  | [] => [a]
  | b :: bs => if le a b then a :: b :: bs else b :: insertSorted le a bs

/-- Insertion sort by the given ordering (stable, deterministic). -/
def sortCats (le : EngineCategory → EngineCategory → Bool) :
    List EngineCategory → List EngineCategory
  | [] => []
  | a :: as => insertSorted le a (sortCats le as)

/-- Modelled from the spec: the zero-based walk — each category in order
receives the smaller of its requested amount and the income still
remaining; the walk returns the per-category grants and the final
remaining income (the unallocated remainder). -/
def zbWalk (remaining : ℚ) : List EngineCategory → List (EngineCategory × ℚ) × ℚ
  | [] => ([], remaining)
  | c :: cs =>
      let give := min (requestedAmount c) remaining
      let rest := zbWalk (remaining - give) cs
      ((c, give) :: rest.1, rest.2)

/-- Allocation line for a granted amount, with percentage of income. -/
def mkAllocation (income : ℚ) (c : EngineCategory) (amt : ℚ) : BudgetAllocation :=
  ⟨c.id, c.name, c.budget_priority, amt, amt / income * 100⟩

/-- ZeroBasedCalculationResult (part_007 lines 1124-1131). -/
structure ZeroBasedCalculationResult where
  methodology : String
  total_income : ℚ
  allocations : List BudgetAllocation
  unallocated : ℚ
  total_allocated : ℚ
  recommendations : List String
deriving DecidableEq, Repr

/-- Modelled from the spec: the Zero-Based algorithm — sort the expense
categories by priority, walk the list granting each its requested amount
while income lasts, and report the final remaining income as the
unallocated remainder. -/
def zeroBasedCalc (income : ℚ) (cats : List EngineCategory) : ZeroBasedCalculationResult :=
  let expense := cats.filter (fun c => c.type == TxKind.expense)
  let ordered := sortCats zbBefore expense
  let walk := zbWalk income ordered
  { methodology := "Zero-Based Budgeting"
    total_income := income
    allocations := walk.1.map (fun p => mkAllocation income p.1 p.2)
    unallocated := walk.2
    total_allocated := (walk.1.map (fun p => p.2)).sum
    recommendations :=
      if 0 < walk.2 then ["Direct the unallocated remainder to savings"] else [] }

/-- Percentage-based configuration (part_007, PercentageBasedConfiguration). -/
structure PercentageBasedConfiguration where
  needs_percentage : ℚ
  wants_percentage : ℚ
  savings_percentage : ℚ
deriving DecidableEq, Repr

/-- The three percentage-based buckets. -/
inductive Bucket where
  | needs
  | wants
  | savings
deriving DecidableEq, Repr

/-- Modelled from the spec: bucket tagging by priority — critical and
essential map to needs, important to wants, discretionary to savings. -/
def bucketOf (c : EngineCategory) : Bucket :=
  match c.budget_priority with
  | .critical => .needs
  | .essential => .needs
  | .important => .wants
  | .discretionary => .savings

/-- Modelled from the spec: division of a bucket budget among its member
categories, proportional to each category historical average spend share
within the bucket; when the bucket has no history at all the budget is
split evenly among the members. -/
def bucketGrants (budget : ℚ) (cats : List EngineCategory) : List (EngineCategory × ℚ) :=
  let w := (cats.map (fun c => c.historicalAvg)).sum
  if w = 0 then cats.map (fun c => (c, budget / cats.length))
  else cats.map (fun c => (c, budget * c.historicalAvg / w))

/-- One bucket of the percentage-based breakdown (part_007,
category_breakdown entries: budget, allocated, remaining, categories). -/
structure BucketBreakdown where
  budget : ℚ
  allocated : ℚ
  remaining : ℚ
  categories : List BudgetAllocation
deriving DecidableEq, Repr

/-- Build a bucket breakdown from its budget and member categories. -/
def mkBucket (income budget : ℚ) (cats : List EngineCategory) : BucketBreakdown :=
  let grants := bucketGrants budget cats
  let a := (grants.map (fun p => p.2)).sum
  { budget := budget
    allocated := a
    remaining := budget - a
    categories := grants.map (fun p => mkAllocation income p.1 p.2) }

/-- PercentageBasedCalculationResult (part_007 lines 1133-1158). -/
structure PercentageBasedCalculationResult where
  methodology : String
  total_income : ℚ
  allocations : List BudgetAllocation
  needs : BucketBreakdown
  wants : BucketBreakdown
  savings : BucketBreakdown
  recommendations : List String
deriving DecidableEq, Repr

/-- Modelled from the spec: the Percentage-Based algorithm — split the
income into needs, wants and savings buckets per the configured
percentages, tag each expense category into a bucket by priority, and
divide each bucket budget among its members by historical share. -/
def percentageBasedCalc (income : ℚ) (cfg : PercentageBasedConfiguration)
    (cats : List EngineCategory) : PercentageBasedCalculationResult :=
  let expense := cats.filter (fun c => c.type == TxKind.expense)
  let n := mkBucket income (income * cfg.needs_percentage / 100)
    (expense.filter (fun c => bucketOf c == Bucket.needs))
  let w := mkBucket income (income * cfg.wants_percentage / 100)
    (expense.filter (fun c => bucketOf c == Bucket.wants))
  let s := mkBucket income (income * cfg.savings_percentage / 100)
    (expense.filter (fun c => bucketOf c == Bucket.savings))
  { methodology := "50/30/20 Rule"
    total_income := income
    allocations := n.categories ++ w.categories ++ s.categories
    needs := n
    wants := w
    savings := s
    recommendations := [] }

/-- Envelope allocation line (part_007, EnvelopeAllocation). -/
structure EnvelopeAllocation where
  category_id : Int
  category_name : String
  priority : Priority
  envelope_amount : ℚ
  percentage_of_income : ℚ
deriving DecidableEq, Repr

/-- EnvelopeCalculationResult (part_007 lines 1160-1167). -/
structure EnvelopeCalculationResult where
  methodology : String
  total_income : ℚ
  envelopes : List EnvelopeAllocation
  total_allocated : ℚ
  unallocated : ℚ
  recommendations : List String
deriving DecidableEq, Repr

/-- Modelled from the spec: priority weight for envelope fallback sizing
(critical 4, essential 3, important 2, discretionary 1). -/
def priorityWeight : Priority → ℚ
  | .critical => 4
  | .essential => 3
  | .important => 2
  | .discretionary => 1

/-- Modelled from the spec: the size of one envelope — the declared
budget limit, or, when unset, a fallback proportionate to priority
weight scaled against the total weight of the limitless categories so
that wholly unset limits make the envelopes sum to the income. -/
def envelopeAmount (income unsetWeight : ℚ) (c : EngineCategory) : ℚ :=
  match c.budget_limit with
  | some l => l
  | none => income * priorityWeight c.budget_priority / unsetWeight

/-- Modelled from the spec: the Envelope algorithm — every expense
category becomes an envelope sized to its declared limit (or the
weighted fallback), and the unallocated remainder is the income minus
the envelope total; unlike zero-based it may be negative. -/
def envelopeCalc (income : ℚ) (cats : List EngineCategory) : EnvelopeCalculationResult :=
  let expense := cats.filter (fun c => c.type == TxKind.expense)
  let unsetWeight :=
    ((expense.filter (fun c => c.budget_limit == none)).map
      (fun c => priorityWeight c.budget_priority)).sum
  let grants := expense.map (fun c => (c, envelopeAmount income unsetWeight c))
  let total := (grants.map (fun p => p.2)).sum
  { methodology := "Envelope Budgeting"
    total_income := income
    envelopes := grants.map (fun p =>
      ⟨p.1.id, p.1.name, p.1.budget_priority, p.2, p.2 / income * 100⟩)
    total_allocated := total
    unallocated := income - total
    recommendations := [] }

/-- The remainder banner of the envelope renderer
(BudgetMethodology.tsx lines 278-284): rendered only when the
unallocated value is nonzero, labelled Unallocated for a positive value
and Over-allocated for a negative one, always showing the absolute
value. -/
def envelopeRemainderView (u : ℚ) : Option (String × ℚ) :=
  if u = 0 then none
  else if 0 < u then some ("Unallocated", |u|)
  else some ("Over-allocated", |u|)

/-! ## C6 — methodology comparison as a read-only operation -/

/-- A calculation result, one of the three shapes (part_007,
MethodologyCalculationResult). -/
inductive CalculationResult where
  | zero : ZeroBasedCalculationResult → CalculationResult
  | pct : PercentageBasedCalculationResult → CalculationResult
  | env : EnvelopeCalculationResult → CalculationResult
deriving DecidableEq, Repr

/-- One entry of a comparison response (part_007, MethodologyComparison). -/
structure MethodologyComparison where
  methodology_id : Int
  methodology_name : String
  methodology_type : MethodologyType
  calculation_result : CalculationResult
deriving DecidableEq, Repr

/-- The persisted state the backend owns: the methodology table (with
its is_active flags), the category snapshot and the normalized monthly
income derived from the Income records. -/
structure ServerState where
  methodologies : List BudgetMethodology
  engineCategories : List EngineCategory
  monthlyIncome : ℚ
deriving DecidableEq, Repr

/-- Modelled from the spec: dispatch on the methodology_type tag to one
of the three pure allocation algorithms.  The percentage configuration
is the typed payload the collaborator parses out of the stored
free-form configuration record. -/
def runMethodology (income : ℚ) (cats : List EngineCategory)
    (cfg : PercentageBasedConfiguration) (m : BudgetMethodology) : CalculationResult :=
  match m.methodology_type with
  | .zero_based => .zero (zeroBasedCalc income cats)
  | .percentage_based => .pct (percentageBasedCalc income cfg cats)
  | .envelope => .env (envelopeCalc income cats)

/-- Modelled from the spec: the comparison endpoint runs the Allocation
Engine once per requested methodology id against the same income and
category snapshot and returns the plans side by side; it is a pure read
of the server state and returns that state unchanged. -/
def compareEndpoint (s : ServerState) (cfg : PercentageBasedConfiguration)
    (income : ℚ) (ids : List Int) : List MethodologyComparison × ServerState :=
  (ids.filterMap (fun i =>
      (s.methodologies.find? (fun m => m.id == i)).map (fun m =>
        ⟨m.id, m.name, m.methodology_type,
          runMethodology income s.engineCategories cfg m⟩)),
    s)

/-- The component state of the BudgetMethodology page that
handleCompareMethodologies can read or write. -/
structure PageState where
  methodologies : List BudgetMethodology
  activeMethodology : Option BudgetMethodology
  comparisons : List MethodologyComparison
  totalIncome : ℚ
deriving DecidableEq, Repr

/-- handleCompareMethodologies (BudgetMethodology.tsx lines 124-143):
build the id list, call the compare endpoint with the income override
(`totalIncome || undefined` — the zero default means no override) and
store the returned comparisons; no other state is written. -/
def handleCompareMethodologies (server : ServerState)
    (cfg : PercentageBasedConfiguration) (page : PageState) : ServerState × PageState :=
  let ids := selectedIds page.methodologies page.activeMethodology
  let income := if page.totalIncome = 0 then server.monthlyIncome else page.totalIncome
  let r := compareEndpoint server cfg income ids
  (r.2, { page with comparisons := r.1 })

/-! ## C8 — Progress Calculator health score (spec §4.3) -/

/-- Modelled from the spec: the overage penalty — linear in the spent
percentage beyond 100, capped at 60 points (the spec leaves the linear
coefficient open; it is taken as one point per percentage point). -/
def overagePenalty (spentPct : ℚ) : ℚ :=
  min 60 (max 0 (spentPct - 100))

/-- Modelled from the spec: the pace penalty — linear in the excess of
the pace ratio over the expected linear pace, capped at 40 points (the
coefficient is taken as 100 points per unit of excess ratio). -/
def pacePenalty (paceRatio : ℚ) : ℚ :=
  min 40 (max 0 ((paceRatio - 1) * 100))

/-- Modelled from the spec: the health score — starts at 100, penalized
by overage beyond 100 percent and by pace exceeding the expected linear
pace for the elapsed fraction of the period, floored at 0. -/
def healthScore (limit spent : ℚ) (totalDays daysElapsed : ℕ) : ℚ :=
  let spentPct := spent / limit * 100
  let dailyPace := spent / (daysElapsed : ℚ)
  let expectedDaily := limit / (totalDays : ℚ)
  let paceRatio := dailyPace / expectedDaily
  max 0 (100 - overagePenalty spentPct - pacePenalty paceRatio)

/-! ## C9 — spike detection (spec §4.4, part_007 SpendingPatternsResponse) -/

/-- Modelled from the spec: the smallest representable unit, the
positive epsilon substituted for a zero prior-window spend. -/
def spikeEpsilon : ℚ := 1 / 1000000

/-- The divisor actually used by the spike ratio: the prior 7-day spend,
or epsilon when that spend is zero. -/
def spikeDivisor (prior7 : ℚ) : ℚ :=
  if prior7 = 0 then spikeEpsilon else prior7

/-- Modelled from the spec: the reported spike ratio — last 7-day spend
over the prior 7-day spend, with epsilon substituted for a zero prior. -/
def spikeRatio (last7 prior7 : ℚ) : ℚ :=
  last7 / spikeDivisor prior7

/-- Modelled from the spec: a category is flagged as a spike when the
ratio exceeds the configured multiplier and the prior spend is nonzero;
when the prior spend is zero, any positive last 7-day spend is a spike
by definition. -/
def isSpike (mult last7 prior7 : ℚ) : Bool :=
  if prior7 = 0 then decide (0 < last7)
  else decide (mult < spikeRatio last7 prior7)

/-- Per-category two-window spend totals feeding spike detection. -/
structure SpikeRow where
  category_id : Int
  category_name : String
  last7_spent : ℚ
  prior7_spent : ℚ
deriving DecidableEq, Repr

/-- One entry of spending_spikes (part_007 lines 685-691). -/
structure SpikeEntry where
  category_id : Int
  category_name : String
  last7_spent : ℚ
  prior7_spent : ℚ
  spike_ratio : ℚ
deriving DecidableEq, Repr

/-- Modelled from the spec: the spending_spikes list — the categories
flagged by the spike test, each reported with its spike ratio. -/
def detectSpikes (mult : ℚ) (rows : List SpikeRow) : List SpikeEntry :=
  (rows.filter (fun r => isSpike mult r.last7_spent r.prior7_spent)).map
    (fun r => ⟨r.category_id, r.category_name, r.last7_spent, r.prior7_spent,
      spikeRatio r.last7_spent r.prior7_spent⟩)

/-! ## Shared lemmas -/

/-- The zero-based walk conserves income: the granted amounts plus the
final remaining income equal the starting income. -/
theorem zbWalk_conservation (l : List EngineCategory) (remaining : ℚ) :
    ((zbWalk remaining l).1.map (fun p => p.2)).sum + (zbWalk remaining l).2 = remaining := by
  induction l generalizing remaining with
  | nil => simp [zbWalk]
  | cons c cs ih =>
      simp only [zbWalk, List.map_cons, List.sum_cons]
      have h := ih (remaining - min (requestedAmount c) remaining)
      linarith

/-- Summing the allocated amounts over a bucket breakdown gives its
allocated total. -/
theorem mkBucket_cat_sum (income budget : ℚ) (cats : List EngineCategory) :
    (((mkBucket income budget cats).categories).map
      (fun a => a.allocated_amount)).sum = (mkBucket income budget cats).allocated := by
  simp only [mkBucket, List.map_map]
  rfl

/-- A bucket breakdown satisfies allocated plus remaining equals budget. -/
theorem mkBucket_split (income budget : ℚ) (cats : List EngineCategory) :
    (mkBucket income budget cats).allocated + (mkBucket income budget cats).remaining = budget := by
  simp [mkBucket]

/-- The percentage-based plan total — all per-category allocated amounts
plus the three bucket remainders — always equals the income scaled by
the sum of the configured percentages over 100. -/
theorem pb_budget_total (income : ℚ) (cfg : PercentageBasedConfiguration)
    (cats : List EngineCategory) :
    (((percentageBasedCalc income cfg cats).allocations).map
        (fun a => a.allocated_amount)).sum
      + ((percentageBasedCalc income cfg cats).needs.remaining
        + (percentageBasedCalc income cfg cats).wants.remaining
        + (percentageBasedCalc income cfg cats).savings.remaining)
    = income * (cfg.needs_percentage + cfg.wants_percentage + cfg.savings_percentage) / 100 := by
  have hn := mkBucket_cat_sum income (income * cfg.needs_percentage / 100)
    ((cats.filter (fun c => c.type == TxKind.expense)).filter
      (fun c => bucketOf c == Bucket.needs))
  have hw := mkBucket_cat_sum income (income * cfg.wants_percentage / 100)
    ((cats.filter (fun c => c.type == TxKind.expense)).filter
      (fun c => bucketOf c == Bucket.wants))
  have hs := mkBucket_cat_sum income (income * cfg.savings_percentage / 100)
    ((cats.filter (fun c => c.type == TxKind.expense)).filter
      (fun c => bucketOf c == Bucket.savings))
  have hn2 := mkBucket_split income (income * cfg.needs_percentage / 100)
    ((cats.filter (fun c => c.type == TxKind.expense)).filter
      (fun c => bucketOf c == Bucket.needs))
  have hw2 := mkBucket_split income (income * cfg.wants_percentage / 100)
    ((cats.filter (fun c => c.type == TxKind.expense)).filter
      (fun c => bucketOf c == Bucket.wants))
  have hs2 := mkBucket_split income (income * cfg.savings_percentage / 100)
    ((cats.filter (fun c => c.type == TxKind.expense)).filter
      (fun c => bucketOf c == Bucket.savings))
  have hbud : income * cfg.needs_percentage / 100 + income * cfg.wants_percentage / 100
      + income * cfg.savings_percentage / 100
      = income * (cfg.needs_percentage + cfg.wants_percentage + cfg.savings_percentage) / 100 := by
    ring
  simp only [percentageBasedCalc, List.map_append, List.sum_append]
  rw [hn, hw, hs]
  linarith

/-- The overage penalty is nonnegative. -/
theorem overagePenalty_nonneg (x : ℚ) : 0 ≤ overagePenalty x :=
  le_min (by norm_num) (le_max_left 0 _)

/-- The pace penalty is nonnegative. -/
theorem pacePenalty_nonneg (x : ℚ) : 0 ≤ pacePenalty x :=
  le_min (by norm_num) (le_max_left 0 _)

/-- The overage penalty is monotone in the spent percentage. -/
theorem overagePenalty_mono {a b : ℚ} (h : a ≤ b) :
    overagePenalty a ≤ overagePenalty b := by
  unfold overagePenalty
  exact min_le_min le_rfl (max_le_max le_rfl (by linarith))

/-- The pace penalty is monotone in the pace ratio. -/
theorem pacePenalty_mono {a b : ℚ} (h : a ≤ b) :
    pacePenalty a ≤ pacePenalty b := by
  unfold pacePenalty
  exact min_le_min le_rfl (max_le_max le_rfl (by linarith))

/-- The overage penalty saturates at its 60-point cap from 160 percent. -/
theorem overagePenalty_sat {x : ℚ} (h : 160 ≤ x) : overagePenalty x = 60 := by
  unfold overagePenalty
  rw [max_eq_right (by linarith), min_eq_left (by linarith)]

/-- The pace penalty saturates at its 40-point cap from pace ratio 2. -/
theorem pacePenalty_sat {x : ℚ} (h : 2 ≤ x) : pacePenalty x = 40 := by
  unfold pacePenalty
  rw [max_eq_right (by linarith), min_eq_left (by linarith)]

/-! ## Claim theorems -/

/-- C7: every transaction submitted through the transaction form has a
strictly positive amount, a nonzero category reference and a non-empty
description — the submit handler performs no submission when the amount
is non-positive, the category id is 0 or the description is empty — and
a submitted transaction satisfies the data-model invariant that the
absolute amount is nonnegative. -/
theorem c7_transaction_submit_guard (f g : TransactionFormData) :
    (handleSubmit f = some g →
      g = f ∧ 0 < g.amount ∧ g.category_id ≠ 0 ∧ g.description ≠ "" ∧ 0 ≤ |g.amount|) ∧
    ((f.amount ≤ 0 ∨ f.category_id = 0 ∨ f.description = "") → handleSubmit f = none) := by
  constructor
  · intro h
    unfold handleSubmit at h
    split at h
    · exact absurd h (by simp)
    · next hneg =>
        push_neg at hneg
        obtain ⟨h1, h2, h3⟩ := hneg
        injection h with h
        subst h
        exact ⟨rfl, h3, h1, h2, abs_nonneg _⟩
  · intro h
    have hg : f.category_id = 0 ∨ f.description = "" ∨ f.amount ≤ 0 := by tauto
    simp [handleSubmit, hg]

/-- C7 witness: a concrete valid form is submitted unchanged and a
concrete non-positive amount is rejected. -/
theorem c7_transaction_submit_guard_witness :
    ((⟨"2024-01-01", 5, 1, "coffee", TxKind.expense⟩ : TransactionFormData)
        = ⟨"2024-01-01", 5, 1, "coffee", TxKind.expense⟩ ∧
      (0 : ℚ) < (5 : ℚ) ∧ (1 : Int) ≠ 0 ∧ "coffee" ≠ "" ∧ (0 : ℚ) ≤ |(5 : ℚ)|) ∧
    handleSubmit ⟨"2024-01-01", 0, 1, "coffee", TxKind.expense⟩ = none := by
  constructor
  · exact (c7_transaction_submit_guard
      ⟨"2024-01-01", 5, 1, "coffee", TxKind.expense⟩
      ⟨"2024-01-01", 5, 1, "coffee", TxKind.expense⟩).1 (by simp [handleSubmit])
  · exact (c7_transaction_submit_guard
      ⟨"2024-01-01", 0, 1, "coffee", TxKind.expense⟩
      ⟨"2024-01-01", 0, 1, "coffee", TxKind.expense⟩).2 (Or.inl le_rfl)

/-- C5: getActive returns null exactly when the server responds with
status 404, re-throws every other error unchanged and passes a success
payload through, never substituting a default methodology. -/
theorem c5_getActive_surfaces_absence (r : ActiveResponse) :
    (getActive r = .ok none ↔ ∃ e, r = .failure e ∧ e.status = some 404) ∧
    (∀ e, r = .failure e → e.status ≠ some 404 → getActive r = .error e) ∧
    (∀ m, r = .success m → getActive r = .ok (some m)) := by
  refine ⟨?_, ?_, ?_⟩
  · cases r with
    | success m => simp [getActive]
    | failure e =>
        by_cases h404 : e.status = some 404 <;> simp [getActive, h404]
  · rintro e rfl h404
    simp [getActive, h404]
  · rintro m rfl
    rfl

/-- C5 witness: a 404 failure yields null, a 500 failure is re-thrown
unchanged, and a success payload is passed through. -/
theorem c5_getActive_surfaces_absence_witness :
    getActive (.failure ⟨some 404, "not found"⟩) = .ok none ∧
    getActive (.failure ⟨some 500, "boom"⟩) = .error ⟨some 500, "boom"⟩ ∧
    getActive (.success ⟨1, "Zero-Based Budgeting", "", .zero_based, true, false, []⟩)
      = .ok (some ⟨1, "Zero-Based Budgeting", "", .zero_based, true, false, []⟩) := by
  refine ⟨?_, ?_, ?_⟩
  · exact (c5_getActive_surfaces_absence (.failure ⟨some 404, "not found"⟩)).1.2
      ⟨⟨some 404, "not found"⟩, rfl, rfl⟩
  · exact (c5_getActive_surfaces_absence (.failure ⟨some 500, "boom"⟩)).2.1
      ⟨some 500, "boom"⟩ rfl (by simp)
  · exact (c5_getActive_surfaces_absence
      (.success ⟨1, "Zero-Based Budgeting", "", .zero_based, true, false, []⟩)).2.2
      ⟨1, "Zero-Based Budgeting", "", .zero_based, true, false, []⟩ rfl

/-- C4 evaluation at the failing input: for an alert whose status is
dismissed the code hides the Dismiss button yet still renders the
Snooze button, so the page offers a dismissed-to-snoozed operation —
contradicting the claim that dismissed is terminal with no operation
offering a dismissed-to-snoozed transition. -/
theorem c4_dismissed_alert_offers_snooze :
    snoozeButtonShown AlertStatus.dismissed = true ∧
    dismissButtonShown AlertStatus.dismissed = false := by
  decide

/-- C3 evaluation at the failing input: the renderer dispatches on the
methodology display string, so a percentage-based plan whose name does
not contain the word Rule falls through to the envelope renderer,
while the seeded name with Rule reaches the percentage renderer — the
dispatch is not by the methodology_type tag. -/
theorem c3_renderer_dispatches_on_name :
    selectRenderer "Percentage-Based Budgeting" = RendererKind.envelope ∧
    selectRenderer "Percentage-Based Budgeting" ≠ RendererKind.percentageBased ∧
    selectRenderer "50/30/20 Rule" = RendererKind.percentageBased := by
  decide

/-- C10: the comparison request lists the active methodology id first
when an active methodology exists, contains at most four ids, and every
other id belongs to a listed methodology whose type differs from the
active type. -/
theorem c10_comparison_id_selection (ms : List BudgetMethodology)
    (act : Option BudgetMethodology) :
    (selectedIds ms act).length ≤ 4 ∧
    (∀ a, act = some a →
      (selectedIds ms act).head? = some a.id ∧
      ∀ i ∈ (selectedIds ms act).tail,
        ∃ m, m ∈ ms ∧ m.id = i ∧ m.methodology_type ≠ a.methodology_type) := by
  constructor
  · cases act with
    | none =>
        simp only [selectedIds, List.length_map, List.length_take]
        exact le_trans (min_le_left _ _) (by norm_num)
    | some a =>
        simp only [selectedIds, List.length_cons, List.length_map, List.length_take]
        have := min_le_left 3 ((ms.filter (differsFromActive (some a))).length)
        omega
  · rintro a rfl
    refine ⟨rfl, ?_⟩
    intro i hi
    simp only [selectedIds, List.tail_cons] at hi
    obtain ⟨m, hm, rfl⟩ := List.mem_map.1 hi
    have hm2 : m ∈ ms.filter (differsFromActive (some a)) :=
      List.take_subset 3 _ hm
    have hm3 := List.mem_filter.1 hm2
    refine ⟨m, hm3.1, rfl, ?_⟩
    have := hm3.2
    simpa [differsFromActive] using this

/-- C10 witness: with an active zero-based methodology and three others,
the request starts with the active id, holds at most four ids, and the
tail ids all belong to methodologies of a different type. -/
theorem c10_comparison_id_selection_witness :
    (selectedIds
        [⟨1, "Zero-Based Budgeting", "", .zero_based, true, false, []⟩,
         ⟨2, "50/30/20 Rule", "", .percentage_based, false, false, []⟩,
         ⟨3, "Envelope Budgeting", "", .envelope, false, false, []⟩]
        (some ⟨1, "Zero-Based Budgeting", "", .zero_based, true, false, []⟩)).length ≤ 4 ∧
    (selectedIds
        [⟨1, "Zero-Based Budgeting", "", .zero_based, true, false, []⟩,
         ⟨2, "50/30/20 Rule", "", .percentage_based, false, false, []⟩,
         ⟨3, "Envelope Budgeting", "", .envelope, false, false, []⟩]
        (some ⟨1, "Zero-Based Budgeting", "", .zero_based, true, false, []⟩)).head?
      = some (1 : Int) := by
  constructor
  · exact (c10_comparison_id_selection
      [⟨1, "Zero-Based Budgeting", "", .zero_based, true, false, []⟩,
       ⟨2, "50/30/20 Rule", "", .percentage_based, false, false, []⟩,
       ⟨3, "Envelope Budgeting", "", .envelope, false, false, []⟩]
      (some ⟨1, "Zero-Based Budgeting", "", .zero_based, true, false, []⟩)).1
  · exact ((c10_comparison_id_selection
      [⟨1, "Zero-Based Budgeting", "", .zero_based, true, false, []⟩,
       ⟨2, "50/30/20 Rule", "", .percentage_based, false, false, []⟩,
       ⟨3, "Envelope Budgeting", "", .envelope, false, false, []⟩]
      (some ⟨1, "Zero-Based Budgeting", "", .zero_based, true, false, []⟩)).2
      ⟨1, "Zero-Based Budgeting", "", .zero_based, true, false, []⟩ rfl).1

/-- C6: running a methodology comparison is read-only — the persisted
server state (methodology table with its is_active flags, category
snapshot, income) is identical before and after the comparison, and the
page handler writes nothing but the comparisons list. -/
theorem c6_compare_is_readonly (server : ServerState)
    (cfg : PercentageBasedConfiguration) (page : PageState) :
    (handleCompareMethodologies server cfg page).1 = server ∧
    ((handleCompareMethodologies server cfg page).2).activeMethodology
      = page.activeMethodology ∧
    ((handleCompareMethodologies server cfg page).2).methodologies
      = page.methodologies ∧
    ((handleCompareMethodologies server cfg page).2).totalIncome
      = page.totalIncome := by
  exact ⟨rfl, rfl, rfl, rfl⟩

/-- C9: a category whose prior 7-day spend is zero and whose last 7-day
spend is positive is flagged as a spike, the divisor actually used is
the nonzero epsilon so no division error can arise, and the reported
spike ratio is the last 7-day spend divided by epsilon. -/
theorem c9_spike_zero_prior (mult : ℚ) (rows : List SpikeRow) (r : SpikeRow)
    (hr : r ∈ rows) (h0 : r.prior7_spent = 0) (hpos : 0 < r.last7_spent) :
    isSpike mult r.last7_spent r.prior7_spent = true ∧
    spikeDivisor r.prior7_spent ≠ 0 ∧
    (⟨r.category_id, r.category_name, r.last7_spent, r.prior7_spent,
        r.last7_spent / spikeEpsilon⟩ : SpikeEntry) ∈ detectSpikes mult rows := by
  have hspike : isSpike mult r.last7_spent r.prior7_spent = true := by
    simp [isSpike, h0, hpos]
  refine ⟨hspike, ?_, ?_⟩
  · simp [spikeDivisor, h0, spikeEpsilon]
  · unfold detectSpikes
    refine List.mem_map.2 ⟨r, List.mem_filter.2 ⟨hr, hspike⟩, ?_⟩
    simp [spikeRatio, spikeDivisor, h0]

/-- C9 witness: dining spent 50 in the last window after a zero prior
window — flagged, safe divisor, ratio 50 over epsilon. -/
theorem c9_spike_zero_prior_witness :
    isSpike 2 50 0 = true ∧ spikeDivisor 0 ≠ 0 ∧
    (⟨7, "Dining", 50, 0, 50 / spikeEpsilon⟩ : SpikeEntry) ∈
      detectSpikes 2 [⟨7, "Dining", 50, 0⟩] :=
  c9_spike_zero_prior 2 [⟨7, "Dining", 50, 0⟩] ⟨7, "Dining", 50, 0⟩
    (List.mem_singleton.2 rfl) rfl (by norm_num)

/-- C2: when every expense category declares a limit and those limits
sum above the income, the envelope plan reports a negative unallocated
value (not clamped), and the renderer distinguishes the two signs — the
label Over-allocated with the absolute value for a negative remainder,
the label Unallocated for a positive one. -/
theorem c2_envelope_overallocation (income : ℚ) (cats : List EngineCategory)
    (hall : ∀ c ∈ cats, c.type = TxKind.expense → c.budget_limit ≠ none)
    (hsum : income <
      ((cats.filter (fun c => c.type == TxKind.expense)).map
        (fun c => c.budget_limit.getD 0)).sum) :
    (envelopeCalc income cats).unallocated < 0 ∧
    (∀ u : ℚ, u < 0 → envelopeRemainderView u = some ("Over-allocated", |u|)) ∧
    (∀ u : ℚ, 0 < u → envelopeRemainderView u = some ("Unallocated", |u|)) := by
  refine ⟨?_, ?_, ?_⟩
  · have hmap : ∀ w : ℚ,
        ((cats.filter (fun c => c.type == TxKind.expense)).map
          (fun c => envelopeAmount income w c))
        = ((cats.filter (fun c => c.type == TxKind.expense)).map
          (fun c => c.budget_limit.getD 0)) := by
      intro w
      refine List.map_congr_left ?_
      intro c hc
      have hc2 := List.mem_filter.1 hc
      have hlim := hall c hc2.1 (by simpa using hc2.2)
      cases hl : c.budget_limit with
      | none => exact absurd hl hlim
      | some l => simp [envelopeAmount, hl]
    simp only [envelopeCalc, List.map_map]
    have htotal :
        ((cats.filter (fun c => c.type == TxKind.expense)).map
          ((fun p : EngineCategory × ℚ => p.2) ∘
            (fun c => (c, envelopeAmount income
              (((cats.filter (fun c => c.type == TxKind.expense)).filter
                  (fun c => c.budget_limit == none)).map
                (fun c => priorityWeight c.budget_priority)).sum c)))).sum
        = ((cats.filter (fun c => c.type == TxKind.expense)).map
            (fun c => c.budget_limit.getD 0)).sum := by
      rw [show ((fun p : EngineCategory × ℚ => p.2) ∘
            (fun c => (c, envelopeAmount income
              (((cats.filter (fun c => c.type == TxKind.expense)).filter
                  (fun c => c.budget_limit == none)).map
                (fun c => priorityWeight c.budget_priority)).sum c)))
          = (fun c => envelopeAmount income
              (((cats.filter (fun c => c.type == TxKind.expense)).filter
                  (fun c => c.budget_limit == none)).map
                (fun c => priorityWeight c.budget_priority)).sum c) from rfl]
      rw [hmap]
    rw [htotal]
    linarith
  · intro u hu
    have h1 : ¬ u = 0 := ne_of_lt hu
    have h2 : ¬ 0 < u := not_lt.2 (le_of_lt hu)
    simp [envelopeRemainderView, h1, h2]
  · intro u hu
    have h1 : ¬ u = 0 := (ne_of_lt hu).symm
    simp [envelopeRemainderView, h1, hu]

/-- C2 witness: one rent category with a 150 limit against an income of
100 — the plan is over-allocated by 50 and the renderer labels it. -/
theorem c2_envelope_overallocation_witness :
    (envelopeCalc 100
      [⟨1, "Rent", TxKind.expense, some 150, Priority.critical, 0⟩]).unallocated < 0 :=
  (c2_envelope_overallocation 100
    [⟨1, "Rent", TxKind.expense, some 150, Priority.critical, 0⟩]
    (by intro c hc _; simp at hc; subst hc; simp)
    (by norm_num)).1

/-- C1 (amended): allocation conservation — for a zero-based plan on
every input and, for a percentage-based plan, under a configuration
whose three percentages sum to exactly 100, the sum of all per-category
allocated amounts plus the unallocated remainder equals the total
income, exactly and hence within the floating tolerance of one
millionth.  The exact-100 hypothesis is needed: under the wider ±0.01
configuration tolerance of spec §4.2 the conservation defect equals
income times the excess over 100 divided by 100 and can exceed the
tolerance, as the companion counterexample shows. -/
theorem c1_allocation_conservation (income : ℚ) (cats : List EngineCategory)
    (cfg : PercentageBasedConfiguration)
    (hcfg : cfg.needs_percentage + cfg.wants_percentage + cfg.savings_percentage = 100) :
    |(zeroBasedCalc income cats).total_allocated
        + (zeroBasedCalc income cats).unallocated - income| ≤ 1 / 1000000 ∧
    |(((percentageBasedCalc income cfg cats).allocations).map
          (fun a => a.allocated_amount)).sum
        + ((percentageBasedCalc income cfg cats).needs.remaining
          + (percentageBasedCalc income cfg cats).wants.remaining
          + (percentageBasedCalc income cfg cats).savings.remaining)
        - income| ≤ 1 / 1000000 := by
  constructor
  · have h := zbWalk_conservation
      (sortCats zbBefore (cats.filter (fun c => c.type == TxKind.expense))) income
    simp only [zeroBasedCalc]
    rw [show ((zbWalk income
          (sortCats zbBefore (cats.filter (fun c => c.type == TxKind.expense)))).1.map
            (fun p => p.2)).sum
        + (zbWalk income
          (sortCats zbBefore (cats.filter (fun c => c.type == TxKind.expense)))).2
        - income = 0 from by linarith]
    norm_num
  · have hn := mkBucket_cat_sum income (income * cfg.needs_percentage / 100)
      ((cats.filter (fun c => c.type == TxKind.expense)).filter
        (fun c => bucketOf c == Bucket.needs))
    have hw := mkBucket_cat_sum income (income * cfg.wants_percentage / 100)
      ((cats.filter (fun c => c.type == TxKind.expense)).filter
        (fun c => bucketOf c == Bucket.wants))
    have hs := mkBucket_cat_sum income (income * cfg.savings_percentage / 100)
      ((cats.filter (fun c => c.type == TxKind.expense)).filter
        (fun c => bucketOf c == Bucket.savings))
    have hn2 := mkBucket_split income (income * cfg.needs_percentage / 100)
      ((cats.filter (fun c => c.type == TxKind.expense)).filter
        (fun c => bucketOf c == Bucket.needs))
    have hw2 := mkBucket_split income (income * cfg.wants_percentage / 100)
      ((cats.filter (fun c => c.type == TxKind.expense)).filter
        (fun c => bucketOf c == Bucket.wants))
    have hs2 := mkBucket_split income (income * cfg.savings_percentage / 100)
      ((cats.filter (fun c => c.type == TxKind.expense)).filter
        (fun c => bucketOf c == Bucket.savings))
    have hbud : income * cfg.needs_percentage / 100 + income * cfg.wants_percentage / 100
        + income * cfg.savings_percentage / 100 = income := by
      field_simp
      linear_combination income * hcfg
    simp only [percentageBasedCalc, List.map_append, List.sum_append]
    rw [hn, hw, hs]
    rw [show (mkBucket income (income * cfg.needs_percentage / 100)
          ((cats.filter (fun c => c.type == TxKind.expense)).filter
            (fun c => bucketOf c == Bucket.needs))).allocated
        + (mkBucket income (income * cfg.wants_percentage / 100)
          ((cats.filter (fun c => c.type == TxKind.expense)).filter
            (fun c => bucketOf c == Bucket.wants))).allocated
        + (mkBucket income (income * cfg.savings_percentage / 100)
          ((cats.filter (fun c => c.type == TxKind.expense)).filter
            (fun c => bucketOf c == Bucket.savings))).allocated
        + ((mkBucket income (income * cfg.needs_percentage / 100)
          ((cats.filter (fun c => c.type == TxKind.expense)).filter
            (fun c => bucketOf c == Bucket.needs))).remaining
          + (mkBucket income (income * cfg.wants_percentage / 100)
          ((cats.filter (fun c => c.type == TxKind.expense)).filter
            (fun c => bucketOf c == Bucket.wants))).remaining
          + (mkBucket income (income * cfg.savings_percentage / 100)
          ((cats.filter (fun c => c.type == TxKind.expense)).filter
            (fun c => bucketOf c == Bucket.savings))).remaining)
        - income = 0 from by linarith]
    norm_num

/-- C1 witness: concrete income 5000, the scenario categories and the
50/30/20 configuration — conservation holds for both plans. -/
theorem c1_allocation_conservation_witness :
    |(zeroBasedCalc 5000
        [⟨1, "Rent", TxKind.expense, some 1500, Priority.critical, 0⟩,
         ⟨2, "Groceries", TxKind.expense, some 600, Priority.essential, 0⟩,
         ⟨3, "Entertainment", TxKind.expense, some 300, Priority.discretionary, 0⟩]).total_allocated
      + (zeroBasedCalc 5000
        [⟨1, "Rent", TxKind.expense, some 1500, Priority.critical, 0⟩,
         ⟨2, "Groceries", TxKind.expense, some 600, Priority.essential, 0⟩,
         ⟨3, "Entertainment", TxKind.expense, some 300, Priority.discretionary, 0⟩]).unallocated
      - 5000| ≤ 1 / 1000000 ∧
    |(((percentageBasedCalc 5000 ⟨50, 30, 20⟩
        [⟨1, "Rent", TxKind.expense, some 1500, Priority.critical, 0⟩,
         ⟨2, "Groceries", TxKind.expense, some 600, Priority.essential, 0⟩,
         ⟨3, "Entertainment", TxKind.expense, some 300, Priority.discretionary, 0⟩]).allocations).map
          (fun a => a.allocated_amount)).sum
      + ((percentageBasedCalc 5000 ⟨50, 30, 20⟩
        [⟨1, "Rent", TxKind.expense, some 1500, Priority.critical, 0⟩,
         ⟨2, "Groceries", TxKind.expense, some 600, Priority.essential, 0⟩,
         ⟨3, "Entertainment", TxKind.expense, some 300, Priority.discretionary, 0⟩]).needs.remaining
        + (percentageBasedCalc 5000 ⟨50, 30, 20⟩
        [⟨1, "Rent", TxKind.expense, some 1500, Priority.critical, 0⟩,
         ⟨2, "Groceries", TxKind.expense, some 600, Priority.essential, 0⟩,
         ⟨3, "Entertainment", TxKind.expense, some 300, Priority.discretionary, 0⟩]).wants.remaining
        + (percentageBasedCalc 5000 ⟨50, 30, 20⟩
        [⟨1, "Rent", TxKind.expense, some 1500, Priority.critical, 0⟩,
         ⟨2, "Groceries", TxKind.expense, some 600, Priority.essential, 0⟩,
         ⟨3, "Entertainment", TxKind.expense, some 300, Priority.discretionary, 0⟩]).savings.remaining)
      - 5000| ≤ 1 / 1000000 :=
  c1_allocation_conservation 5000
    [⟨1, "Rent", TxKind.expense, some 1500, Priority.critical, 0⟩,
     ⟨2, "Groceries", TxKind.expense, some 600, Priority.essential, 0⟩,
     ⟨3, "Entertainment", TxKind.expense, some 300, Priority.discretionary, 0⟩]
    ⟨50, 30, 20⟩ (by norm_num)

/-- C1 counterexample: the claim as stated fails on a spec-valid input.
The configuration 50, 30, 20.005 sums to 100.005, within the ±0.01
validity tolerance of spec §4.2, yet at income 4000 with a single needs
category the percentage-based conservation defect is one fifth, far
above the claimed one-millionth tolerance. -/
theorem c1_allocation_conservation_counterexample :
    |(50 : ℚ) + 30 + 4001 / 200 - 100| ≤ 1 / 100 ∧
    1 / 1000000 <
      |(((percentageBasedCalc 4000 ⟨50, 30, 4001 / 200⟩
            [⟨1, "Rent", TxKind.expense, some 1500, Priority.critical, 0⟩]).allocations).map
            (fun a => a.allocated_amount)).sum
        + ((percentageBasedCalc 4000 ⟨50, 30, 4001 / 200⟩
            [⟨1, "Rent", TxKind.expense, some 1500, Priority.critical, 0⟩]).needs.remaining
          + (percentageBasedCalc 4000 ⟨50, 30, 4001 / 200⟩
            [⟨1, "Rent", TxKind.expense, some 1500, Priority.critical, 0⟩]).wants.remaining
          + (percentageBasedCalc 4000 ⟨50, 30, 4001 / 200⟩
            [⟨1, "Rent", TxKind.expense, some 1500, Priority.critical, 0⟩]).savings.remaining)
        - 4000| := by
  constructor
  · rw [show (50 : ℚ) + 30 + 4001 / 200 - 100 = 1 / 200 from by norm_num,
      abs_of_nonneg (by norm_num : (0 : ℚ) ≤ 1 / 200)]
    norm_num
  · rw [pb_budget_total]
    rw [show (4000 : ℚ) * (50 + 30 + 4001 / 200) / 100 - 4000 = 1 / 5 from by norm_num,
      abs_of_nonneg (by norm_num : (0 : ℚ) ≤ 1 / 5)]
    norm_num

/-- C8: the health score lies in the closed interval from 0 to 100 for
all inputs; a zero spent amount scores exactly 100; and for a positive
budget over a well-formed period the score is antitone in the spent
amount and reaches the 0 clamp beyond a finite bound. -/
theorem c8_health_score_bounds (limit spent : ℚ) (totalDays daysElapsed : ℕ) :
    0 ≤ healthScore limit spent totalDays daysElapsed ∧
    healthScore limit spent totalDays daysElapsed ≤ 100 ∧
    healthScore limit 0 totalDays daysElapsed = 100 ∧
    (0 < limit → 1 ≤ daysElapsed → 1 ≤ totalDays →
      (∀ s t : ℚ, s ≤ t →
        healthScore limit t totalDays daysElapsed
          ≤ healthScore limit s totalDays daysElapsed) ∧
      (∃ B : ℚ, ∀ s : ℚ, B ≤ s → healthScore limit s totalDays daysElapsed = 0)) := by
  refine ⟨?_, ?_, ?_, ?_⟩
  · simp only [healthScore]
    exact le_max_left _ _
  · simp only [healthScore]
    have h1 := overagePenalty_nonneg (spent / limit * 100)
    have h2 := pacePenalty_nonneg (spent / (daysElapsed : ℚ) / (limit / (totalDays : ℚ)))
    exact max_le (by norm_num) (by linarith)
  · simp only [healthScore]
    rw [zero_div, zero_mul, zero_div, zero_div]
    rw [show overagePenalty 0 = 0 from by unfold overagePenalty; norm_num]
    rw [show pacePenalty 0 = 0 from by unfold pacePenalty; norm_num]
    norm_num
  · intro hlim hd hT
    have hdq : 0 < (daysElapsed : ℚ) := by exact_mod_cast hd
    have hTq : 0 < (totalDays : ℚ) := by exact_mod_cast hT
    have hE : 0 < limit / (totalDays : ℚ) := div_pos hlim hTq
    constructor
    · intro s t hst
      have h1 : s / limit * 100 ≤ t / limit * 100 :=
        mul_le_mul_of_nonneg_right ((div_le_div_right hlim).2 hst) (by norm_num)
      have h2 : s / (daysElapsed : ℚ) / (limit / (totalDays : ℚ))
          ≤ t / (daysElapsed : ℚ) / (limit / (totalDays : ℚ)) :=
        (div_le_div_right hE).2 ((div_le_div_right hdq).2 hst)
      simp only [healthScore]
      exact max_le_max le_rfl (by
        have := overagePenalty_mono h1
        have := pacePenalty_mono h2
        linarith)
    · refine ⟨max (2 * limit) (2 * limit * (daysElapsed : ℚ) / (totalDays : ℚ)), ?_⟩
      intro s hsB
      have hs1 : 2 * limit ≤ s := le_trans (le_max_left _ _) hsB
      have hs2 : 2 * limit * (daysElapsed : ℚ) / (totalDays : ℚ) ≤ s :=
        le_trans (le_max_right _ _) hsB
      have ho : 160 ≤ s / limit * 100 := by
        rw [div_mul_eq_mul_div, le_div_iff hlim]
        linarith
      have hp : 2 ≤ s / (daysElapsed : ℚ) / (limit / (totalDays : ℚ)) := by
        rw [le_div_iff hE, le_div_iff hdq]
        have key : 2 * (limit / (totalDays : ℚ)) * (daysElapsed : ℚ)
            = 2 * limit * (daysElapsed : ℚ) / (totalDays : ℚ) := by ring
        calc 2 * (limit / (totalDays : ℚ)) * (daysElapsed : ℚ)
            = 2 * limit * (daysElapsed : ℚ) / (totalDays : ℚ) := key
          _ ≤ s := hs2
      simp only [healthScore]
      rw [overagePenalty_sat ho, pacePenalty_sat hp]
      norm_num

/-- C8 witness: a 200 budget over a 30-day month with 10 days elapsed —
zero spend scores 100, and spending 150 scores no higher than spending
nothing. -/
theorem c8_health_score_bounds_witness :
    healthScore 200 0 30 10 = 100 ∧
    healthScore 200 150 30 10 ≤ healthScore 200 0 30 10 := by
  constructor
  · exact (c8_health_score_bounds 200 0 30 10).2.2.1
  · exact ((c8_health_score_bounds 200 150 30 10).2.2.2 (by norm_num)
      (by norm_num) (by norm_num)).1 0 150 (by norm_num)

end Vibe
